import Mathlib

/-!
Verification of the synchronization and conflict-resolution subsystem of the
EchoTask notes application.  The development shallowly embeds the TypeScript
sources under src/hooks (database-service.ts, firebase-sync-service.ts,
notes-store.ts) as pure Lean functions over explicit state.

Modelling conventions:
- Timestamps (JS Date values and Firestore Timestamps) are Nat milliseconds.
  Every Date.now or new Date call inside one operation is represented by a
  single explicit parameter, typically called now; the Firestore server
  timestamp is a separate parameter serverNow.
- Freshly generated identifiers (Date.now plus a random suffix in the source)
  are explicit parameters (freshId, or an indexed generator freshIds).
- The native SQLite path of database-service.ts is embedded.  A note row and
  its checklist_items rows are modelled as one Note record carrying the value
  that mapRowToNote would reconstruct (in particular an empty checklist table
  reads back as the absent checklist).
- JSON.stringify equality tests on tags and checklist are modelled as
  structural equality of the corresponding Lean values; TS optional fields
  (undefined as absent) are modelled as Option.
- The completed, isDeleted and conflictVersion fields are optional in the TS
  Note interface but every value flowing through the subsystem coalesces them
  (completed ? 1 : 0, isDeleted || false, conflictVersion || 0); they are
  modelled as Bool, Bool and Nat.
- SQL ORDER BY clauses and the pull page limit of 100 documents are dropped:
  every property proved here is insensitive to the iteration order of
  distinct notes, and no claim concerns paging.
-/

namespace EchoTask

/-- A checklist item, from the ChecklistItem interface of src/types/notes.ts
(and the checklist_items table of database-service.ts). -/
structure ChecklistItem where
  id : String
  text : String
  completed : Bool
  createdAt : Nat
deriving DecidableEq, Repr

/-- A rich-text segment, from the RichTextSegment interface of
src/types/notes.ts.  The optional flags are coalesced to Bool. -/
structure RichTextSegment where
  text : String
  bold : Bool
  italic : Bool
  highlight : Bool
  bulletPoint : Bool
deriving DecidableEq, Repr

/-- A note, from the Note interface of src/types/notes.ts restricted to the
fields the sync subsystem reads or writes (the fields of the notes SQL table
of database-service.ts plus the reconstructed checklist). -/
structure Note where
  id : String
  title : String
  content : String
  richContent : Option (List RichTextSegment)
  type : String
  completed : Bool
  checklist : Option (List ChecklistItem)
  tags : List String
  createdAt : Nat
  updatedAt : Nat
  syncId : Option String
  lastSyncAt : Option Nat
  conflictVersion : Nat
  isDeleted : Bool
  deviceId : String
deriving DecidableEq, Repr

/-- An unresolved divergence, from the SyncConflict interface. -/
structure SyncConflict where
  noteId : String
  localVersion : Note
  remoteVersion : Note
  conflictFields : List String
deriving DecidableEq, Repr

/-- The dirty predicate of the getNotesForSync query:
last_sync_at IS NULL OR updated_at > last_sync_at. -/
def Note.isDirty (n : Note) : Bool :=
  match n.lastSyncAt with
  | none => true
  | some t => decide (t < n.updatedAt)

/-- A Partial Note as accepted by DatabaseService.updateNote.  A field is
some v exactly when the TS updates object carries that property with a
non-undefined value (passing an Option-typed source field through, as
saveRemoteNote does with richContent, checklist and syncId, collapses
undefined to absent, matching the !== undefined guards). -/
structure NoteUpdates where
  title : Option String := none
  content : Option String := none
  richContent : Option (List RichTextSegment) := none
  type : Option String := none
  completed : Option Bool := none
  tags : Option (List String) := none
  checklist : Option (List ChecklistItem) := none
  updatedAt : Option Nat := none
  syncId : Option String := none
  lastSyncAt : Option Nat := none
  conflictVersion : Option Nat := none
  isDeleted : Option Bool := none
deriving DecidableEq, Repr

/-- The row transformation performed by the native DatabaseService.updateNote:
only title, content, richContent, type, completed and tags have SET branches,
updated_at is always set to the current time, and the checklist_items rows are
replaced when a checklist is supplied (an empty replacement reads back as an
absent checklist).  The updatedAt, syncId, lastSyncAt, conflictVersion and
isDeleted members of the updates object have no SET branch and are ignored. -/
def applyNoteUpdates (u : NoteUpdates) (now : Nat) (n : Note) : Note :=
  { n with
    title := u.title.getD n.title
    content := u.content.getD n.content
    richContent := match u.richContent with
      | some rc => some rc
      | none => n.richContent
    type := u.type.getD n.type
    completed := u.completed.getD n.completed
    tags := u.tags.getD n.tags
    updatedAt := now
    checklist := match u.checklist with
      | some xs => if xs = [] then none else some xs
      | none => n.checklist }

/-- The local store: the notes table (soft-deleted rows included) and the
sync_metadata key-value table. -/
structure LocalStore where
  notes : List Note
  syncMetadata : List (String × String)
deriving DecidableEq, Repr

/-- DatabaseService.getNoteById: SELECT * FROM notes WHERE id = ? AND
is_deleted = 0 (first match). -/
def LocalStore.getNoteById (db : LocalStore) (id : String) : Option Note :=
  db.notes.find? (fun n => n.id == id && !n.isDeleted)

/-- DatabaseService.updateNote, native path: UPDATE rows whose id matches
(the WHERE clause does not filter on is_deleted). -/
def LocalStore.updateNote (db : LocalStore) (id : String) (u : NoteUpdates)
    (now : Nat) : LocalStore :=
  { db with notes := db.notes.map (fun n =>
      if n.id == id then applyNoteUpdates u now n else n) }

/-- The data accepted by DatabaseService.saveNote:
Omit of Note over id, createdAt, updatedAt and deviceId. -/
structure NewNoteData where
  title : String
  content : String
  richContent : Option (List RichTextSegment) := none
  type : String
  completed : Bool := false
  checklist : Option (List ChecklistItem) := none
  tags : List String
  syncId : Option String := none
  lastSyncAt : Option Nat := none
  conflictVersion : Option Nat := none
  isDeleted : Bool := false
deriving DecidableEq, Repr

/-- DatabaseService.saveNote, native path: a fresh id is generated and
createdAt and updatedAt are both set to the current time.  The INSERT stores
JSON.stringify of richContent or the empty list, so the row reads back with a
present (possibly empty) richContent; an empty checklist reads back absent.
The record returned is the row as it reads back. -/
def LocalStore.saveNote (db : LocalStore) (data : NewNoteData)
    (freshId : String) (now : Nat) (deviceId : String) : Note × LocalStore :=
  let newNote : Note :=
    { id := freshId
      title := data.title
      content := data.content
      richContent := some (data.richContent.getD [])
      type := data.type
      completed := data.completed
      checklist := match data.checklist with
        | some xs => if xs = [] then none else some xs
        | none => none
      tags := data.tags
      createdAt := now
      updatedAt := now
      syncId := data.syncId
      lastSyncAt := data.lastSyncAt
      conflictVersion := data.conflictVersion.getD 0
      isDeleted := data.isDeleted
      deviceId := deviceId }
  (newNote, { db with notes := db.notes ++ [newNote] })

/-- DatabaseService.deleteNote, native path: soft delete.
UPDATE notes SET is_deleted = 1, updated_at = now WHERE id = ?. -/
def LocalStore.deleteNote (db : LocalStore) (id : String) (now : Nat) :
    LocalStore :=
  { db with notes := db.notes.map (fun n =>
      if n.id == id then { n with isDeleted := true, updatedAt := now } else n) }

/-- DatabaseService.getNotesForSync: SELECT * FROM notes WHERE last_sync_at IS
NULL OR updated_at > last_sync_at (soft-deleted rows included; ORDER BY
dropped, see the header). -/
def LocalStore.getNotesForSync (db : LocalStore) : List Note :=
  db.notes.filter Note.isDirty

/-- DatabaseService.markAsSynced: UPDATE notes SET sync_id = ?,
last_sync_at = now WHERE id = ?. -/
def LocalStore.markAsSynced (db : LocalStore) (noteId syncId : String)
    (now : Nat) : LocalStore :=
  { db with notes := db.notes.map (fun n =>
      if n.id == noteId then { n with syncId := some syncId, lastSyncAt := some now } else n) }

/-- DatabaseService.getSyncMetadata: SELECT value FROM sync_metadata WHERE
key = ?. -/
def LocalStore.getSyncMetadata (db : LocalStore) (key : String) :
    Option String :=
  (db.syncMetadata.find? (fun p => p.1 == key)).map (fun p => p.2)

/-- DatabaseService.setSyncMetadata: INSERT OR REPLACE INTO sync_metadata. -/
def LocalStore.setSyncMetadata (db : LocalStore) (key value : String) :
    LocalStore :=
  { db with syncMetadata :=
      (key, value) :: db.syncMetadata.filter (fun p => !(p.1 == key)) }

/-- A Firestore document of the notes collection, exactly the object built by
FirebaseSyncService.uploadNote (lastModified is the server timestamp). -/
structure FirebaseNote where
  id : String
  title : String
  content : String
  richContent : List RichTextSegment
  type : String
  completed : Bool
  checklist : List ChecklistItem
  tags : List String
  createdAt : Nat
  updatedAt : Nat
  isDeleted : Bool
  deviceId : String
  conflictVersion : Nat
  lastModified : Nat
deriving DecidableEq, Repr

/-- The remote notes collection: documents keyed by their document path
(note.syncId or note.id at upload time). -/
abbrev RemoteStore := List (String × FirebaseNote)

/-- Firestore document lookup by key. -/
def remoteGet (r : RemoteStore) (k : String) : Option FirebaseNote :=
  (r.find? (fun p => p.1 == k)).map (fun p => p.2)

/-- setDoc with merge over a document whose every field is supplied: a keyed
upsert of the full document. -/
def remoteSet (r : RemoteStore) (k : String) (d : FirebaseNote) : RemoteStore :=
  (k, d) :: r.filter (fun p => !(p.1 == k))

/-- The combined state the sync service operates on: the local database, the
remote collection, and the service flags of FirebaseSyncService
(isInitialized, syncInProgress) together with the connectivity answer of
databaseService.isOnline. -/
structure World where
  db : LocalStore
  remote : RemoteStore
  isInitialized : Bool
  online : Bool
  syncInProgress : Bool
deriving DecidableEq, Repr

/-- The result object of FirebaseSyncService.syncNotes. -/
structure SyncResult where
  success : Bool
  conflicts : List SyncConflict
deriving DecidableEq, Repr

/-- The document built by FirebaseSyncService.uploadNote from a local note
(completed, checklist, richContent, conflictVersion and isDeleted coalesced
with their defaults; lastModified from serverTimestamp). -/
def firebaseNoteOf (note : Note) (serverNow : Nat) : FirebaseNote :=
  { id := note.id
    title := note.title
    content := note.content
    richContent := note.richContent.getD []
    type := note.type
    completed := note.completed
    checklist := note.checklist.getD []
    tags := note.tags
    createdAt := note.createdAt
    updatedAt := note.updatedAt
    isDeleted := note.isDeleted
    deviceId := note.deviceId
    conflictVersion := note.conflictVersion
    lastModified := serverNow }

/-- FirebaseSyncService.uploadNote: setDoc with merge at the document keyed by
note.syncId or note.id. -/
def uploadNote (serverNow : Nat) (w : World) (note : Note) : World :=
  { w with
    remote := remoteSet w.remote (note.syncId.getD note.id)
      (firebaseNoteOf note serverNow) }

/-- FirebaseSyncService.mapFirebaseToNote (Timestamp.toDate conversions are
the identity on Nat timestamps; lastSyncAt is the current time). -/
def mapFirebaseToNote (d : FirebaseNote) (now : Nat) : Note :=
  { id := d.id
    title := d.title
    content := d.content
    richContent := some d.richContent
    type := d.type
    completed := d.completed
    checklist := some d.checklist
    tags := d.tags
    createdAt := d.createdAt
    updatedAt := d.updatedAt
    syncId := some d.id
    lastSyncAt := some now
    conflictVersion := d.conflictVersion
    isDeleted := d.isDeleted
    deviceId := d.deviceId }

/-- FirebaseSyncService.getConflictFields: the field names pushed, in source
order; tags and checklist are compared through JSON.stringify, modelled as
structural equality. -/
def getConflictFields (localNote remoteNote : Note) : List String :=
  (if localNote.title ≠ remoteNote.title then ["title"] else [])
  ++ (if localNote.content ≠ remoteNote.content then ["content"] else [])
  ++ (if localNote.completed ≠ remoteNote.completed then ["completed"] else [])
  ++ (if localNote.tags ≠ remoteNote.tags then ["tags"] else [])
  ++ (if localNote.checklist ≠ remoteNote.checklist then ["checklist"] else [])

/-- FirebaseSyncService.saveRemoteNote: update the existing local note through
updateNote, or create a new local note through saveNote.  The updates and the
new-note data carry exactly the properties the source passes. -/
def saveRemoteNote (now : Nat) (freshId deviceId : String) (w : World)
    (note : Note) : World :=
  match w.db.getNoteById note.id with
  | some _ =>
      { w with
        db := w.db.updateNote note.id
          { title := some note.title
            content := some note.content
            richContent := note.richContent
            type := some note.type
            completed := some note.completed
            checklist := note.checklist
            tags := some note.tags
            syncId := note.syncId
            lastSyncAt := some now
            isDeleted := some note.isDeleted } now }
  | none =>
      { w with
        db := (w.db.saveNote
          { title := note.title
            content := note.content
            richContent := note.richContent
            type := note.type
            completed := note.completed
            checklist := note.checklist
            tags := note.tags
            syncId := note.syncId
            lastSyncAt := some now
            isDeleted := note.isDeleted } freshId now deviceId).2 }

/-- FirebaseSyncService.resolveConflict: most recent updatedAt wins; on a tie
a conflict is returned exactly when some compared content field differs. -/
def resolveConflict (now serverNow : Nat) (freshId deviceId : String)
    (w : World) (localNote remoteNote : Note) : Option SyncConflict × World :=
  if remoteNote.updatedAt > localNote.updatedAt then
    (none, saveRemoteNote now freshId deviceId w remoteNote)
  else if localNote.updatedAt > remoteNote.updatedAt then
    (none, uploadNote serverNow w localNote)
  else
    let conflictFields := getConflictFields localNote remoteNote
    if conflictFields.length > 0 then
      (some { noteId := localNote.id, localVersion := localNote,
              remoteVersion := remoteNote, conflictFields := conflictFields }, w)
    else
      (none, w)

/-- The per-document body of the loop in
FirebaseSyncService.downloadRemoteChanges: insert when locally absent, invoke
resolveConflict when the updatedAt timestamps differ, skip otherwise. -/
def pullStep (now serverNow : Nat) (freshId deviceId : String) (w : World)
    (remoteNote : Note) : List SyncConflict × World :=
  match w.db.getNoteById remoteNote.id with
  | none => ([], saveRemoteNote now freshId deviceId w remoteNote)
  | some localNote =>
      if localNote.updatedAt ≠ remoteNote.updatedAt then
        let r := resolveConflict now serverNow freshId deviceId w localNote remoteNote
        (r.1.toList, r.2)
      else ([], w)

/-- parseInt on the decimal strings produced by Date.now().toString(). -/
def parseDecimal (s : String) : Nat :=
  s.data.foldl (fun acc c => acc * 10 + (c.toNat - 48)) 0

/-- The Firestore query of downloadRemoteChanges: all documents when no
watermark is stored, otherwise those with lastModified strictly above the
parsed watermark (descending order and the page limit of 100 dropped, see the
header). -/
def querySnapshot (remote : RemoteStore) (lastSyncTime : Option String) :
    List FirebaseNote :=
  match lastSyncTime with
  | some v => (remote.map (fun p => p.2)).filter
      (fun d => decide (parseDecimal v < d.lastModified))
  | none => remote.map (fun p => p.2)

/-- One iteration of the downloadRemoteChanges loop, threading the conflict
accumulator, the world and the fresh-id index. -/
def pullLoopStep (now serverNow : Nat) (freshIds : Nat → String)
    (deviceId : String) (acc : List SyncConflict × World × Nat)
    (d : FirebaseNote) : List SyncConflict × World × Nat :=
  let r := pullStep now serverNow (freshIds acc.2.2) deviceId acc.2.1
      (mapFirebaseToNote d now)
  (acc.1 ++ r.1, r.2, acc.2.2 + 1)

/-- FirebaseSyncService.downloadRemoteChanges: pull the documents changed
since the watermark, run the per-document step on each, then store the
current device time as the new last_sync_time watermark. -/
def downloadRemoteChanges (now serverNow : Nat) (freshIds : Nat → String)
    (deviceId : String) (w : World) : List SyncConflict × World :=
  let snapshot := querySnapshot w.remote (w.db.getSyncMetadata "last_sync_time")
  let acc := snapshot.foldl (pullLoopStep now serverNow freshIds deviceId)
      ([], w, 0)
  (acc.1, { acc.2.1 with
            db := acc.2.1.db.setSyncMetadata "last_sync_time" (toString now) })

/-- One iteration of the push loop of syncNotes: upload the dirty note, then
markAsSynced with note.syncId or note.id.  (The per-note try/catch that skips
markAsSynced on a failed upload is not failure-injected; the claims under
study do not concern individual push failures.) -/
def pushStep (now serverNow : Nat) (wa : World) (note : Note) : World :=
  let w1 := uploadNote serverNow wa note
  { w1 with db := w1.db.markAsSynced note.id (note.syncId.getD note.id) now }

/-- The push phase of syncNotes: fold the push loop over the dirty set. -/
def pushPhase (now serverNow : Nat) (w : World) : World :=
  w.db.getNotesForSync.foldl (pushStep now serverNow) w

/-- FirebaseSyncService.syncNotes.  The failDownload flag injects the failure
path of the try/catch around the pass body (an exception thrown inside
downloadRemoteChanges): the catch branch returns success false with the
conflicts gathered so far (none at that point), and the finally branch clears
syncInProgress either way. -/
def syncNotes (failDownload : Bool) (now serverNow : Nat)
    (freshIds : Nat → String) (deviceId : String) (w : World) :
    SyncResult × World :=
  if !w.isInitialized || w.syncInProgress then
    ({ success := false, conflicts := [] }, w)
  else if !w.online then
    ({ success := false, conflicts := [] }, w)
  else
    let w1 := { w with syncInProgress := true }
    let w2 := pushPhase now serverNow w1
    if failDownload then
      ({ success := false, conflicts := [] }, { w2 with syncInProgress := false })
    else
      let r := downloadRemoteChanges now serverNow freshIds deviceId w2
      ({ success := true, conflicts := r.1 }, { r.2 with syncInProgress := false })

/-- The per-change body of the onSnapshot callback in
FirebaseSyncService.startRealtimeSync, for an added or modified document:
save the remote copy when the note is locally absent or the remote updatedAt
is strictly newer.  The handler has no conflict channel; the first component
is the empty list by construction. -/
def realtimeStep (now : Nat) (freshId deviceId : String) (w : World)
    (d : FirebaseNote) : List SyncConflict × World :=
  match w.db.getNoteById (mapFirebaseToNote d now).id with
  | none => ([], saveRemoteNote now freshId deviceId w (mapFirebaseToNote d now))
  | some localNote =>
      if localNote.updatedAt < (mapFirebaseToNote d now).updatedAt then
        ([], saveRemoteNote now freshId deviceId w (mapFirebaseToNote d now))
      else ([], w)

/-- FirebaseSyncService.resolveConflictManually: overwrite the local note with
the chosen version through updateNote (conflictVersion supplied incremented),
then upload the chosen version when initialized. -/
def resolveConflictManually (now serverNow : Nat) (w : World)
    (conflict : SyncConflict) (useLocal : Bool) : World :=
  let noteToKeep := if useLocal then conflict.localVersion
                    else conflict.remoteVersion
  let w1 := { w with
    db := w.db.updateNote conflict.noteId
      { title := some noteToKeep.title
        content := some noteToKeep.content
        richContent := noteToKeep.richContent
        completed := some noteToKeep.completed
        checklist := noteToKeep.checklist
        tags := some noteToKeep.tags
        conflictVersion := some (noteToKeep.conflictVersion + 1) } now }
  if w1.isInitialized then uploadNote serverNow w1 noteToKeep else w1

/-- The SyncStatus state of notes-store.ts. -/
structure SyncStatus where
  isOnline : Bool
  isSyncing : Bool
  lastSyncAt : Option Nat := none
  pendingChanges : Nat
  conflicts : List SyncConflict
deriving DecidableEq, Repr

/-- performSync of notes-store.ts: raise isSyncing, run syncNotes; on success
reload the notes (loadNotes recomputes isOnline and pendingChanges) and then
set lastSyncAt, replace conflicts with the result conflicts and zero
pendingChanges; finally clear isSyncing. -/
def performSync (failDownload : Bool) (now serverNow : Nat)
    (freshIds : Nat → String) (deviceId : String) (w : World)
    (status : SyncStatus) : World × SyncStatus :=
  let status1 := { status with isSyncing := true }
  let r := syncNotes failDownload now serverNow freshIds deviceId w
  let status2 :=
    if r.1.success then
      let statusLoaded := { status1 with
        isOnline := r.2.online
        pendingChanges := r.2.db.getNotesForSync.length }
      { statusLoaded with
        lastSyncAt := some now
        conflicts := r.1.conflicts
        pendingChanges := 0 }
    else status1
  (r.2, { status2 with isSyncing := false })

/-- The resolveConflict callback of notes-store.ts: run the manual resolution,
then remove every conflict for that note id from the open set. -/
def storeResolveConflict (now serverNow : Nat) (w : World)
    (status : SyncStatus) (conflict : SyncConflict) (useLocal : Bool) :
    World × SyncStatus :=
  let w1 := resolveConflictManually now serverNow w conflict useLocal
  (w1, { status with
         conflicts := status.conflicts.filter
           (fun c => !(c.noteId == conflict.noteId)) })

/-! ### Concrete sample data, used by witnesses and counterexamples -/

/-- A sample local note. -/
def sampleNote : Note :=
  { id := "n1", title := "L", content := "c", richContent := none,
    type := "note", completed := false, checklist := none, tags := ["a"],
    createdAt := 10, updatedAt := 50, syncId := some "n1",
    lastSyncAt := some 100, conflictVersion := 0, isDeleted := false,
    deviceId := "devA" }

/-- A remote revision of sampleNote that is strictly newer. -/
def sampleRemoteNewer : Note :=
  { sampleNote with title := "R", updatedAt := 80, lastSyncAt := some 200,
                    deviceId := "devB" }

/-- A remote revision of sampleNote with equal updatedAt and different title. -/
def sampleRemoteTie : Note :=
  { sampleNote with title := "R" }

/-- A world holding only sampleNote locally. -/
def sampleWorld : World :=
  { db := { notes := [sampleNote], syncMetadata := [] }, remote := [],
    isInitialized := true, online := true, syncInProgress := false }

/-- A world with an empty local store and empty remote collection. -/
def emptyWorld : World :=
  { db := { notes := [], syncMetadata := [] }, remote := [],
    isInitialized := true, online := true, syncInProgress := false }

/-- A remote document carrying the newer revision of sampleNote. -/
def sampleDoc : FirebaseNote := firebaseNoteOf sampleRemoteNewer 77

/-- A remote document tied with sampleNote on updatedAt but differing in
content fields. -/
def sampleDocTie : FirebaseNote := { firebaseNoteOf sampleNote 77 with title := "R" }

/-- A sample open conflict over sampleNote. -/
def sampleConflict : SyncConflict :=
  { noteId := "n1", localVersion := sampleNote, remoteVersion := sampleRemoteTie,
    conflictFields := ["title"] }

/-- An open conflict for an unrelated note id. -/
def otherConflict : SyncConflict :=
  { noteId := "z", localVersion := sampleNote, remoteVersion := sampleNote,
    conflictFields := ["title"] }

/-- A sync status with one open conflict for the unrelated note. -/
def sampleStatus : SyncStatus :=
  { isOnline := true, isSyncing := false, lastSyncAt := none,
    pendingChanges := 0, conflicts := [otherConflict] }

/-! ### Helper lemmas -/

/-- find? commutes with a map that does not disturb the predicate. -/
theorem find?_map_of_pred_eq {α : Type} (g : α → α) (p : α → Bool)
    (hp : ∀ a, p (g a) = p a) :
    ∀ l : List α, (l.map g).find? p = (l.find? p).map g := by
  intro l
  induction l with
  | nil => rfl
  | cons a t ih =>
      simp only [List.map_cons, List.find?, hp a]
      cases p a
      · simpa using ih
      · rfl

/-- applyNoteUpdates changes neither the id nor the deletion flag. -/
theorem applyNoteUpdates_id (u : NoteUpdates) (now : Nat) (n : Note) :
    (applyNoteUpdates u now n).id = n.id := rfl

/-- applyNoteUpdates changes neither the id nor the deletion flag. -/
theorem applyNoteUpdates_isDeleted (u : NoteUpdates) (now : Nat) (n : Note) :
    (applyNoteUpdates u now n).isDeleted = n.isDeleted := rfl

/-- Reading back the updated note: updateNote rewrites exactly the row the
lookup finds. -/
theorem getNoteById_updateNote (db : LocalStore) (i : String)
    (u : NoteUpdates) (now : Nat) :
    (db.updateNote i u now).getNoteById i
      = (db.getNoteById i).map (applyNoteUpdates u now) := by
  unfold LocalStore.updateNote LocalStore.getNoteById
  simp only
  rw [find?_map_of_pred_eq]
  · cases h : db.notes.find? (fun n => n.id == i && !n.isDeleted) with
    | none => rfl
    | some n =>
        have hp := List.find?_some h
        simp only [Bool.and_eq_true, beq_iff_eq, Bool.not_eq_true'] at hp
        simp [hp.1]
  · intro a
    by_cases ha : a.id = i <;>
      simp [ha, applyNoteUpdates_id, applyNoteUpdates_isDeleted]

/-- Reading back a freshly written metadata key. -/
theorem getSyncMetadata_set_self (db : LocalStore) (k v : String) :
    (db.setSyncMetadata k v).getSyncMetadata k = some v := by
  simp [LocalStore.getSyncMetadata, LocalStore.setSyncMetadata, List.find?]

/-- Reading back a freshly upserted remote document. -/
theorem remoteGet_remoteSet_self (r : RemoteStore) (k : String)
    (d : FirebaseNote) : remoteGet (remoteSet r k d) k = some d := by
  simp [remoteGet, remoteSet, List.find?]

/-- A keyed upsert leaves other keys unread. -/
theorem remoteGet_remoteSet_ne (r : RemoteStore) (k k' : String)
    (d : FirebaseNote) (h : k' ≠ k) :
    remoteGet (remoteSet r k d) k' = remoteGet r k' := by
  have hk : (k == k') = false := beq_eq_false_iff_ne.mpr (Ne.symm h)
  unfold remoteGet remoteSet
  simp only [List.find?, hk]
  congr 1
  induction r with
  | nil => rfl
  | cons a t ih =>
      by_cases ha : a.1 = k
      · simp [List.filter_cons, List.find?_cons, ha, hk, ih]
      · by_cases hb : a.1 = k' <;>
          simp [List.filter_cons, List.find?_cons, ha, hb, h, ih]

/-- A world already running a sync pass. -/
def busyWorld : World := { sampleWorld with syncInProgress := true }

/-- A world with one remote document and nothing local. -/
def watermarkWorld : World := { emptyWorld with remote := [("n1", sampleDoc)] }

/-- A Partial Note supplying every field, including the ones the native
updateNote has no SET branch for. -/
def sampleUpdates : NoteUpdates :=
  { title := some "T2", content := some "c2", type := some "task",
    completed := some true, tags := some ["x"],
    richContent := some [], checklist := some [],
    updatedAt := some 123, syncId := some "S9", lastSyncAt := some 999,
    conflictVersion := some 42, isDeleted := some true }

/-- A remote revision of sampleNote that is strictly older. -/
def sampleRemoteOlder : Note :=
  { sampleNote with title := "R0", updatedAt := 30 }

/-- The remote document carrying the older revision. -/
def sampleDocOlder : FirebaseNote := firebaseNoteOf sampleRemoteOlder 77

/-! ### Claim theorems -/

/-- C4: at most one sync pass is active at a time.  A call to syncNotes while
a pass is already in progress returns immediately with an unsuccessful
result, empty conflicts and no state change; and the syncInProgress flag
after any call equals the flag before it — in particular a full pass, with or
without an injected internal failure, always ends with the flag false. -/
theorem C4_single_flight (failDownload : Bool) (now serverNow : Nat)
    (freshIds : Nat → String) (deviceId : String) (w : World) :
    (w.syncInProgress = true →
      syncNotes failDownload now serverNow freshIds deviceId w
        = ({ success := false, conflicts := [] }, w)) ∧
    (syncNotes failDownload now serverNow freshIds deviceId w).2.syncInProgress
      = w.syncInProgress := by
  constructor
  · intro h
    simp [syncNotes, h]
  · cases hInit : w.isInitialized <;> cases hSy : w.syncInProgress <;>
      cases hOn : w.online <;> cases hF : failDownload <;>
        simp [syncNotes, hInit, hSy, hOn, hF]

/-- Witness for C4 at a world whose pass is in progress. -/
theorem C4_single_flight_witness :
    syncNotes false 0 0 (fun _ => "f") "devA" busyWorld
      = ({ success := false, conflicts := [] }, busyWorld) ∧
    (syncNotes false 0 0 (fun _ => "f") "devA" busyWorld).2.syncInProgress
      = busyWorld.syncInProgress :=
  ⟨(C4_single_flight false 0 0 (fun _ => "f") "devA" busyWorld).1 rfl,
   (C4_single_flight false 0 0 (fun _ => "f") "devA" busyWorld).2⟩

/-- C7 counterexample: with one remote document whose lastModified is 77 and
a device clock of 999, the pull stores 999 as the watermark, not the maximum
remote modification time observed (77).  This refutes the claim that the
watermark is advanced to the maximum remote modification time. -/
theorem C7_counterexample :
    ((downloadRemoteChanges 999 500 (fun _ => "f0") "devA"
        watermarkWorld).2).db.getSyncMetadata "last_sync_time" = some "999" ∧
    watermarkWorld.remote.map (fun p => p.2.lastModified) = [77] ∧
    ("999" : String) ≠ toString (77 : Nat) := by
  decide

/-- C7 amended: at the end of the pull step the persisted watermark is set to
the device wall-clock time of the pass, regardless of the remote modification
times observed (and regardless of whether anything was pulled). -/
theorem C7_watermark_wall_clock (now serverNow : Nat) (freshIds : Nat → String)
    (deviceId : String) (w : World) :
    ((downloadRemoteChanges now serverNow freshIds deviceId
        w).2).db.getSyncMetadata "last_sync_time" = some (toString now) := by
  simp [downloadRemoteChanges, getSyncMetadata_set_self]

/-- C8 counterexample: a conflict recorded for an unrelated note before a
pass is gone from SyncStatus.conflicts after a successful pass — the publish
step overwrites the conflict set instead of merging into it. -/
theorem C8_counterexample :
    otherConflict ∈ sampleStatus.conflicts ∧
    (syncNotes false 1 2 (fun _ => "f") "devA" emptyWorld).1.success = true ∧
    (performSync false 1 2 (fun _ => "f") "devA" emptyWorld
        sampleStatus).2.conflicts = [] := by
  decide

/-- C8 amended: publishing after a sync pass replaces SyncStatus.conflicts
with exactly the conflicts of that pass when the pass succeeded (dropping all
previously recorded conflicts, including those for other notes), and leaves
the conflict set unchanged when the pass failed. -/
theorem C8_conflicts_replaced (failDownload : Bool) (now serverNow : Nat)
    (freshIds : Nat → String) (deviceId : String) (w : World)
    (status : SyncStatus) :
    (performSync failDownload now serverNow freshIds deviceId w
        status).2.conflicts
      = (if (syncNotes failDownload now serverNow freshIds deviceId w).1.success
         then (syncNotes failDownload now serverNow freshIds deviceId w).1.conflicts
         else status.conflicts) := by
  unfold performSync
  cases h : (syncNotes failDownload now serverNow freshIds deviceId w).1.success <;>
    simp [h]

/-- C10: the native updateNote overwrites updatedAt with the current time
regardless of any supplied updatedAt, applies exactly the supplied title,
content, richContent, type, completed, tags and checklist, and leaves the
stored syncId, lastSyncAt, conflictVersion and isDeleted columns unchanged
even when the updates object supplies values for them. -/
theorem C10_updateNote_native_fields (db : LocalStore) (i : String)
    (u : NoteUpdates) (now : Nat) (n : Note)
    (h : db.getNoteById i = some n) :
    ∃ n2, (db.updateNote i u now).getNoteById i = some n2 ∧
      n2.updatedAt = now ∧
      n2.syncId = n.syncId ∧
      n2.lastSyncAt = n.lastSyncAt ∧
      n2.conflictVersion = n.conflictVersion ∧
      n2.isDeleted = n.isDeleted ∧
      n2.createdAt = n.createdAt ∧
      n2.id = n.id ∧
      n2.deviceId = n.deviceId ∧
      n2.title = u.title.getD n.title ∧
      n2.content = u.content.getD n.content ∧
      n2.type = u.type.getD n.type ∧
      n2.completed = u.completed.getD n.completed ∧
      n2.tags = u.tags.getD n.tags ∧
      n2.richContent = (match u.richContent with
        | some rc => some rc
        | none => n.richContent) ∧
      n2.checklist = (match u.checklist with
        | some xs => if xs = [] then none else some xs
        | none => n.checklist) := by
  refine ⟨applyNoteUpdates u now n, ?_, rfl, rfl, rfl, rfl, rfl, rfl, rfl,
    rfl, rfl, rfl, rfl, rfl, rfl, rfl, rfl⟩
  rw [getNoteById_updateNote, h]
  rfl

/-- Witness for C10 at sampleNote with updates supplying every field. -/
theorem C10_updateNote_native_fields_witness :
    ∃ n2, (sampleWorld.db.updateNote "n1" sampleUpdates 777).getNoteById "n1"
        = some n2 ∧
      n2.updatedAt = 777 ∧
      n2.syncId = sampleNote.syncId ∧
      n2.lastSyncAt = sampleNote.lastSyncAt ∧
      n2.conflictVersion = sampleNote.conflictVersion ∧
      n2.isDeleted = sampleNote.isDeleted ∧
      n2.createdAt = sampleNote.createdAt ∧
      n2.id = sampleNote.id ∧
      n2.deviceId = sampleNote.deviceId ∧
      n2.title = sampleUpdates.title.getD sampleNote.title ∧
      n2.content = sampleUpdates.content.getD sampleNote.content ∧
      n2.type = sampleUpdates.type.getD sampleNote.type ∧
      n2.completed = sampleUpdates.completed.getD sampleNote.completed ∧
      n2.tags = sampleUpdates.tags.getD sampleNote.tags ∧
      n2.richContent = (match sampleUpdates.richContent with
        | some rc => some rc
        | none => sampleNote.richContent) ∧
      n2.checklist = (match sampleUpdates.checklist with
        | some xs => if xs = [] then none else some xs
        | none => sampleNote.checklist) :=
  C10_updateNote_native_fields sampleWorld.db "n1" sampleUpdates 777
    sampleNote (by decide)

/-- C1 counterexample: with local updatedAt 50, lastSyncAt 100 and a strictly
newer remote revision (updatedAt 80), the take-remote resolution at device
time 200 overwrites the content but leaves the stored note dirty (updatedAt
becomes 200, lastSyncAt stays 100), so the dirty state is not cleared and the
remote updatedAt does not become authoritative. -/
theorem C1_counterexample :
    (resolveConflict 200 500 "f1" "devA" sampleWorld sampleNote
        sampleRemoteNewer).1 = none ∧
    ((resolveConflict 200 500 "f1" "devA" sampleWorld sampleNote
        sampleRemoteNewer).2.db.getNoteById "n1").map Note.title = some "R" ∧
    ((resolveConflict 200 500 "f1" "devA" sampleWorld sampleNote
        sampleRemoteNewer).2.db.getNoteById "n1").map Note.isDirty
      = some true ∧
    ((resolveConflict 200 500 "f1" "devA" sampleWorld sampleNote
        sampleRemoteNewer).2.db.getNoteById "n1").map Note.updatedAt
      = some 200 ∧
    ((resolveConflict 200 500 "f1" "devA" sampleWorld sampleNote
        sampleRemoteNewer).2.db.getNoteById "n1").map Note.lastSyncAt
      = some (some 100) ∧
    sampleRemoteNewer.updatedAt = 80 := by
  decide

/-- C1 amended: for a pair with differing updatedAt the resolver picks the
strictly newer side and returns no conflict.  Take-remote overwrites the
local content fields through updateNote, which stamps updatedAt with the
current device time (not the remote updatedAt) and leaves lastSyncAt, syncId,
conflictVersion and isDeleted unchanged — so the note is dirty afterwards
whenever its old lastSyncAt is absent or earlier than the device time, rather
than having its dirty state cleared.  Take-local uploads the local note to
the remote store and leaves the local store unchanged. -/
theorem C1_timestamp_resolution (now serverNow : Nat)
    (freshId deviceId : String) (w : World) (localNote remoteNote : Note)
    (hFound : w.db.getNoteById remoteNote.id = some localNote) :
    (localNote.updatedAt < remoteNote.updatedAt →
      (resolveConflict now serverNow freshId deviceId w localNote
          remoteNote).1 = none ∧
      (resolveConflict now serverNow freshId deviceId w localNote
          remoteNote).2.remote = w.remote ∧
      ∃ n2, (resolveConflict now serverNow freshId deviceId w localNote
            remoteNote).2.db.getNoteById remoteNote.id = some n2 ∧
        n2.title = remoteNote.title ∧
        n2.content = remoteNote.content ∧
        n2.type = remoteNote.type ∧
        n2.completed = remoteNote.completed ∧
        n2.tags = remoteNote.tags ∧
        n2.richContent = (match remoteNote.richContent with
          | some rc => some rc
          | none => localNote.richContent) ∧
        n2.checklist = (match remoteNote.checklist with
          | some xs => if xs = [] then none else some xs
          | none => localNote.checklist) ∧
        n2.updatedAt = now ∧
        n2.lastSyncAt = localNote.lastSyncAt ∧
        n2.syncId = localNote.syncId ∧
        n2.conflictVersion = localNote.conflictVersion ∧
        n2.isDeleted = localNote.isDeleted ∧
        n2.isDirty = localNote.lastSyncAt.all (fun t => decide (t < now))) ∧
    (remoteNote.updatedAt < localNote.updatedAt →
      (resolveConflict now serverNow freshId deviceId w localNote
          remoteNote).1 = none ∧
      (resolveConflict now serverNow freshId deviceId w localNote
          remoteNote).2.db = w.db ∧
      remoteGet (resolveConflict now serverNow freshId deviceId w localNote
          remoteNote).2.remote (localNote.syncId.getD localNote.id)
        = some (firebaseNoteOf localNote serverNow)) := by
  constructor
  · intro hlt
    have hc : remoteNote.updatedAt > localNote.updatedAt := hlt
    refine ⟨?_, ?_, ?_⟩
    · simp [resolveConflict, hc]
    · simp [resolveConflict, hc, saveRemoteNote, hFound]
    · simp only [resolveConflict, if_pos hc]
      simp only [saveRemoteNote, hFound]
      rw [getNoteById_updateNote, hFound]
      refine ⟨applyNoteUpdates _ now localNote, rfl, rfl, rfl, rfl, rfl, rfl,
        rfl, rfl, rfl, rfl, rfl, rfl, rfl, ?_⟩
      cases hls : localNote.lastSyncAt <;>
        simp [Note.isDirty, applyNoteUpdates, hls]
  · intro hgt
    have hc1 : ¬(remoteNote.updatedAt > localNote.updatedAt) := by omega
    have hc2 : localNote.updatedAt > remoteNote.updatedAt := hgt
    refine ⟨?_, ?_, ?_⟩
    · simp [resolveConflict, hc1, hc2]
    · simp [resolveConflict, hc1, hc2, uploadNote]
    · simp only [resolveConflict, if_neg hc1, if_pos hc2]
      exact remoteGet_remoteSet_self _ _ _

/-- Witness for C1 in both directions: taking the newer remote at a found
local note, and re-uploading the newer local note over an older remote. -/
theorem C1_timestamp_resolution_witness :
    (resolveConflict 200 500 "f1" "devA" sampleWorld sampleNote
        sampleRemoteNewer).1 = none ∧
    (resolveConflict 200 500 "f1" "devA" sampleWorld sampleNote
        sampleRemoteOlder).2.db = sampleWorld.db ∧
    remoteGet (resolveConflict 200 500 "f1" "devA" sampleWorld sampleNote
        sampleRemoteOlder).2.remote (sampleNote.syncId.getD sampleNote.id)
      = some (firebaseNoteOf sampleNote 500) :=
  ⟨((C1_timestamp_resolution 200 500 "f1" "devA" sampleWorld sampleNote
      sampleRemoteNewer (by decide)).1 (by decide)).1,
   ((C1_timestamp_resolution 200 500 "f1" "devA" sampleWorld sampleNote
      sampleRemoteOlder (by decide)).2 (by decide)).2.1,
   ((C1_timestamp_resolution 200 500 "f1" "devA" sampleWorld sampleNote
      sampleRemoteOlder (by decide)).2 (by decide)).2.2⟩

/-- C2: on an updatedAt tie the resolver leaves the world unchanged, returns
no conflict exactly when title, content, completed, tags and checklist are
all equal, and otherwise returns a conflict carrying the pair whose
conflictFields contains each of the five compared field names exactly when
that field differs and nothing else; for a pair differing in title only the
conflict fields are exactly the one-element list with title. -/
theorem C2_equal_timestamp_conflict_fields (now serverNow : Nat)
    (freshId deviceId : String) (w : World) (localNote remoteNote : Note)
    (h : localNote.updatedAt = remoteNote.updatedAt) :
    (resolveConflict now serverNow freshId deviceId w localNote
        remoteNote).2 = w ∧
    ((resolveConflict now serverNow freshId deviceId w localNote
        remoteNote).1 = none ↔
      (localNote.title = remoteNote.title ∧
       localNote.content = remoteNote.content ∧
       localNote.completed = remoteNote.completed ∧
       localNote.tags = remoteNote.tags ∧
       localNote.checklist = remoteNote.checklist)) ∧
    (∀ conf, (resolveConflict now serverNow freshId deviceId w localNote
        remoteNote).1 = some conf →
      conf.noteId = localNote.id ∧ conf.localVersion = localNote ∧
      conf.remoteVersion = remoteNote ∧
      ("title" ∈ conf.conflictFields ↔ localNote.title ≠ remoteNote.title) ∧
      ("content" ∈ conf.conflictFields ↔
        localNote.content ≠ remoteNote.content) ∧
      ("completed" ∈ conf.conflictFields ↔
        localNote.completed ≠ remoteNote.completed) ∧
      ("tags" ∈ conf.conflictFields ↔ localNote.tags ≠ remoteNote.tags) ∧
      ("checklist" ∈ conf.conflictFields ↔
        localNote.checklist ≠ remoteNote.checklist) ∧
      (∀ f ∈ conf.conflictFields,
        f ∈ (["title", "content", "completed", "tags", "checklist"] :
          List String))) ∧
    ((localNote.title ≠ remoteNote.title ∧
      localNote.content = remoteNote.content ∧
      localNote.completed = remoteNote.completed ∧
      localNote.tags = remoteNote.tags ∧
      localNote.checklist = remoteNote.checklist) →
      (resolveConflict now serverNow freshId deviceId w localNote
          remoteNote).1
        = some { noteId := localNote.id, localVersion := localNote,
                 remoteVersion := remoteNote, conflictFields := ["title"] }) := by
  have hng1 : ¬(remoteNote.updatedAt > localNote.updatedAt) := by omega
  have hng2 : ¬(localNote.updatedAt > remoteNote.updatedAt) := by omega
  by_cases h1 : localNote.title = remoteNote.title <;>
    by_cases h2 : localNote.content = remoteNote.content <;>
      by_cases h3 : localNote.completed = remoteNote.completed <;>
        by_cases h4 : localNote.tags = remoteNote.tags <;>
          by_cases h5 : localNote.checklist = remoteNote.checklist <;>
            simp [resolveConflict, getConflictFields, hng1, hng2,
              h1, h2, h3, h4, h5]

/-- Witness for C2 at a tied pair differing in title only. -/
theorem C2_equal_timestamp_conflict_fields_witness :
    (resolveConflict 200 500 "f1" "devA" sampleWorld sampleNote
        sampleRemoteTie).2 = sampleWorld ∧
    (resolveConflict 200 500 "f1" "devA" sampleWorld sampleNote
        sampleRemoteTie).1
      = some { noteId := sampleNote.id, localVersion := sampleNote,
               remoteVersion := sampleRemoteTie, conflictFields := ["title"] } :=
  ⟨(C2_equal_timestamp_conflict_fields 200 500 "f1" "devA" sampleWorld
      sampleNote sampleRemoteTie rfl).1,
   (C2_equal_timestamp_conflict_fields 200 500 "f1" "devA" sampleWorld
      sampleNote sampleRemoteTie rfl).2.2.2 (by decide)⟩

/-- C3 counterexample: for a remote document strictly older than the local
note, the periodic per-note step invokes the resolver and re-uploads the
local note to the remote store, while the realtime handler leaves the world
untouched — the two paths are not identical. -/
theorem C3_counterexample :
    (realtimeStep 200 "f1" "devA" sampleWorld sampleDocOlder).2
      = sampleWorld ∧
    (pullStep 200 500 "f1" "devA" sampleWorld
        (mapFirebaseToNote sampleDocOlder 200)).2 ≠ sampleWorld ∧
    (pullStep 200 500 "f1" "devA" sampleWorld
        (mapFirebaseToNote sampleDocOlder 200)).2.remote
      ≠ (realtimeStep 200 "f1" "devA" sampleWorld sampleDocOlder).2.remote := by
  decide

/-- C3 amended: the realtime handler and the periodic per-note step always
produce the same local store and the same conflict list (both in fact produce
no conflicts, since the per-note step consults the resolver only on differing
timestamps, where it never flags a conflict); but the realtime handler does
not route through the conflict resolver, so the remote-side effects can
differ, as the counterexample shows for a strictly newer local note. -/
theorem C3_realtime_local_agreement (now serverNow : Nat)
    (freshId deviceId : String) (w : World) (d : FirebaseNote) :
    (realtimeStep now freshId deviceId w d).2.db
      = (pullStep now serverNow freshId deviceId w
          (mapFirebaseToNote d now)).2.db ∧
    (realtimeStep now freshId deviceId w d).1
      = (pullStep now serverNow freshId deviceId w
          (mapFirebaseToNote d now)).1 ∧
    (pullStep now serverNow freshId deviceId w
        (mapFirebaseToNote d now)).1 = [] := by
  unfold realtimeStep pullStep
  cases hq : w.db.getNoteById (mapFirebaseToNote d now).id with
  | none => exact ⟨rfl, rfl, rfl⟩
  | some ln =>
      rcases Nat.lt_trichotomy ln.updatedAt
          (mapFirebaseToNote d now).updatedAt with hlt | heq | hgt
      · have hne : ln.updatedAt ≠ (mapFirebaseToNote d now).updatedAt :=
          Nat.ne_of_lt hlt
        simp [hne, hlt, resolveConflict]
      · have hnlt : ¬(ln.updatedAt < (mapFirebaseToNote d now).updatedAt) := by
          omega
        simp [heq, hnlt]
      · have hne : ln.updatedAt ≠ (mapFirebaseToNote d now).updatedAt :=
          Nat.ne_of_gt hgt
        have hnlt : ¬(ln.updatedAt < (mapFirebaseToNote d now).updatedAt) := by
          omega
        have hc1 : ¬((mapFirebaseToNote d now).updatedAt > ln.updatedAt) := by
          omega
        have hc2 : ln.updatedAt > (mapFirebaseToNote d now).updatedAt := hgt
        simp [hne, hnlt, resolveConflict, hc1, hc2, uploadNote]

/-- C5, code bug: manual resolution choosing local overwrites the local
content and pushes the chosen version to the remote store, but the stored
conflictVersion column is unchanged (0, not 1): resolveConflictManually
passes conflictVersion incremented, and the native updateNote silently drops
it (it has no SET branch for conflict_version), contradicting the caller and
the web path, which applies it. -/
theorem C5_conflictVersion_bug :
    ((resolveConflictManually 300 600 sampleWorld sampleConflict
        true).db.getNoteById "n1").map Note.conflictVersion = some 0 ∧
    sampleConflict.localVersion.conflictVersion = 0 ∧
    ((resolveConflictManually 300 600 sampleWorld sampleConflict
        true).db.getNoteById "n1").map Note.title = some "L" ∧
    remoteGet (resolveConflictManually 300 600 sampleWorld sampleConflict
        true).remote "n1" = some (firebaseNoteOf sampleNote 600) ∧
    (firebaseNoteOf sampleNote 600).title = "L" := by
  decide

/-- C6, code bug: a remote note absent locally is not inserted verbatim.
saveNote generates a fresh id and stamps createdAt and updatedAt with the
device time, so the inserted row has id fresh1 (not n1) and timestamps 200
(not the remote updatedAt 80); the note is then not found under the remote
id, and a second delivery of the same document inserts a duplicate —
contradicting the skip-on-equal-updatedAt logic of the pull loop itself. -/
theorem C6_insert_fresh_id_bug :
    ((pullStep 200 500 "fresh1" "devA" emptyWorld
        (mapFirebaseToNote sampleDoc 200)).2.db.notes.map Note.id
      = ["fresh1"]) ∧
    ("fresh1" : String) ≠ "n1" ∧
    ((pullStep 200 500 "fresh1" "devA" emptyWorld
        (mapFirebaseToNote sampleDoc 200)).2.db.notes.map Note.createdAt
      = [200]) ∧
    ((pullStep 200 500 "fresh1" "devA" emptyWorld
        (mapFirebaseToNote sampleDoc 200)).2.db.notes.map Note.updatedAt
      = [200]) ∧
    ((pullStep 200 500 "fresh1" "devA" emptyWorld
        (mapFirebaseToNote sampleDoc 200)).2.db.notes.map Note.lastSyncAt
      = [some 200]) ∧
    (mapFirebaseToNote sampleDoc 200).id = "n1" ∧
    (mapFirebaseToNote sampleDoc 200).updatedAt = 80 ∧
    ((pullStep 200 500 "fresh1" "devA" emptyWorld
        (mapFirebaseToNote sampleDoc 200)).2.db.getNoteById "n1" = none) ∧
    ((pullStep 200 500 "fresh2" "devA"
        (pullStep 200 500 "fresh1" "devA" emptyWorld
          (mapFirebaseToNote sampleDoc 200)).2
        (mapFirebaseToNote sampleDoc 200)).2.db.notes.length = 2) := by
  decide

/-- A synced note whose remote copy is stable: lastSyncAt 40, updatedAt 50. -/
def tombSource : Note := { sampleNote with lastSyncAt := some 40 }

/-- A world holding tombSource with a watermark past the remote clock. -/
def tombWorld : World :=
  { sampleWorld with
    db := { notes := [tombSource],
            syncMetadata := [("last_sync_time", "1000")] } }

/-- After the push fold, a key no dirty note maps to reads as before. -/
theorem pushFold_remote_frame (now serverNow : Nat) (k : String) :
    ∀ (l : List Note) (w : World), (∀ m ∈ l, m.syncId.getD m.id ≠ k) →
      remoteGet ((l.foldl (pushStep now serverNow) w).remote) k
        = remoteGet w.remote k := by
  intro l
  induction l with
  | nil => intro w _; rfl
  | cons m t ih =>
      intro w hm
      rw [List.foldl_cons,
        ih _ (fun x hx => hm x (List.mem_cons_of_mem m hx))]
      exact remoteGet_remoteSet_ne _ _ _ _
        (fun he => hm m (List.mem_cons_self m t) he.symm)

/-- After the push fold, the key of the unique dirty note carrying it holds
exactly the uploaded document of that note. -/
theorem pushFold_remote_last (now serverNow : Nat) (k : String) (n' : Note) :
    ∀ (l : List Note) (w : World),
      l.filter (fun m => m.syncId.getD m.id == k) = [n'] →
      remoteGet ((l.foldl (pushStep now serverNow) w).remote) k
        = some (firebaseNoteOf n' serverNow) := by
  intro l
  induction l with
  | nil => intro w hf; simp at hf
  | cons m t ih =>
      intro w hf
      by_cases hm : m.syncId.getD m.id = k
      · rw [List.filter_cons_of_pos (by simp [hm])] at hf
        simp only [List.cons.injEq] at hf
        obtain ⟨hmn, hft⟩ := hf
        subst hmn
        rw [List.foldl_cons,
          pushFold_remote_frame now serverNow k t _ ?_]
        · show remoteGet
            (remoteSet w.remote (m.syncId.getD m.id)
              (firebaseNoteOf m serverNow)) k = _
          rw [hm]
          exact remoteGet_remoteSet_self _ _ _
        · intro x hx hxk
          have := List.filter_eq_nil_iff.mp hft x hx
          simp [hxk] at this
      · rw [List.filter_cons_of_neg (by simp [hm])] at hf
        rw [List.foldl_cons]
        exact ih _ hf

/-- C9: a locally soft-deleted note (isDeleted set, updatedAt bumped) that is
dirty afterwards is part of the dirty set of the next sync pass and is pushed
to the remote store, whose copy then carries isDeleted true — the tombstone
propagates and the record is never hard-removed from the synced set.  The
filter hypothesis states that the deleted note is the unique dirty note
mapping to its remote document key; the snapshot hypothesis states that the
subsequent pull of that pass sees no changed remote documents (the remote
copy is unchanged since the previous watermark). -/
theorem C9_tombstone_propagates
    (w : World) (n : Note) (now1 now2 serverNow : Nat)
    (freshIds : Nat → String) (deviceId : String)
    (hInit : w.isInitialized = true) (hOn : w.online = true)
    (hSy : w.syncInProgress = false)
    (hFilter : ((w.db.deleteNote n.id now1).getNotesForSync).filter
        (fun m => m.syncId.getD m.id == n.syncId.getD n.id)
        = [{ n with isDeleted := true, updatedAt := now1 }])
    (hSnap : querySnapshot
        (pushPhase now2 serverNow
          { w with db := w.db.deleteNote n.id now1,
                   syncInProgress := true }).remote
        ((pushPhase now2 serverNow
          { w with db := w.db.deleteNote n.id now1,
                   syncInProgress := true }).db.getSyncMetadata
          "last_sync_time") = []) :
    { n with isDeleted := true, updatedAt := now1 }
        ∈ (w.db.deleteNote n.id now1).getNotesForSync ∧
    (syncNotes false now2 serverNow freshIds deviceId
        { w with db := w.db.deleteNote n.id now1 }).1.success = true ∧
    remoteGet (syncNotes false now2 serverNow freshIds deviceId
        { w with db := w.db.deleteNote n.id now1 }).2.remote
        (n.syncId.getD n.id)
      = some (firebaseNoteOf { n with isDeleted := true, updatedAt := now1 }
          serverNow) ∧
    (firebaseNoteOf { n with isDeleted := true, updatedAt := now1 }
        serverNow).isDeleted = true := by
  refine ⟨?_, ?_, ?_, rfl⟩
  · exact List.mem_of_mem_filter (hFilter ▸ List.mem_singleton.mpr rfl)
  · simp [syncNotes, hInit, hOn, hSy, downloadRemoteChanges, hSnap]
  · have hrun : syncNotes false now2 serverNow freshIds deviceId
        { w with db := w.db.deleteNote n.id now1 }
      = (let w2 := pushPhase now2 serverNow
            { w with db := w.db.deleteNote n.id now1,
                     syncInProgress := true }
         let r := downloadRemoteChanges now2 serverNow freshIds deviceId w2
         ({ success := true, conflicts := r.1 },
          { r.2 with syncInProgress := false })) := by
      simp [syncNotes, hInit, hOn, hSy]
    rw [hrun]
    simp only [downloadRemoteChanges, hSnap, List.foldl_nil]
    show remoteGet (pushPhase now2 serverNow
        { w with db := w.db.deleteNote n.id now1,
                 syncInProgress := true }).remote (n.syncId.getD n.id) = _
    unfold pushPhase
    exact pushFold_remote_last now2 serverNow (n.syncId.getD n.id) _ _ _
      hFilter

/-- Witness for C9: tombSource deleted at time 200 and synced at time 300
against a quiet remote collection. -/
theorem C9_tombstone_propagates_witness :
    { tombSource with isDeleted := true, updatedAt := 200 }
        ∈ (tombWorld.db.deleteNote tombSource.id 200).getNotesForSync ∧
    (syncNotes false 300 500 (fun _ => "f") "devA"
        { tombWorld with
          db := tombWorld.db.deleteNote tombSource.id 200 }).1.success
      = true ∧
    remoteGet (syncNotes false 300 500 (fun _ => "f") "devA"
        { tombWorld with
          db := tombWorld.db.deleteNote tombSource.id 200 }).2.remote
        (tombSource.syncId.getD tombSource.id)
      = some (firebaseNoteOf
          { tombSource with isDeleted := true, updatedAt := 200 } 500) ∧
    (firebaseNoteOf { tombSource with isDeleted := true, updatedAt := 200 }
        500).isDeleted = true :=
  C9_tombstone_propagates tombWorld tombSource 200 300 500 (fun _ => "f")
    "devA" rfl rfl rfl (by decide) (by decide)

end EchoTask
